import Mathlib

set_option linter.unusedVariables false

/-!
# Verification of the treatment-plan assistant's core logic

Shallow embedding of the core data model and operations of the
AI-Powered-Treatment-Plan-Assistant repository:

* `src/types.ts` — the data model (medications, patient record, warnings,
  treatment recommendations, clinical analysis, audit entries);
* `src/services/drugDatabase.ts` — the static interaction rule table and the
  deterministic checker `checkDatabaseInteractions`;
* `src/services/geminiService.ts` — the pure post-validation enrichment step of
  `analyzePatient` (tagging every warning `AI_MODEL`);
* `src/components/FinalSummary.tsx` (the `App` component) — the session state,
  the audit-log accumulator `addLog`, the merge-and-escalation step inside
  `handleIntakeSubmit`, and the handlers `handleApprovePlan`,
  `handleRejectPlan`, `handleRestart`.

JavaScript strings are modelled by `String`; `String.prototype.includes` is
modelled by substring containment on the underlying character lists, and
`toLowerCase` by mapping `Char.toLower` over them.  JavaScript numbers that
the core logic
compares or maxes (`riskScore`, `confidenceScore`) are modelled by `Rat`;
numeric patient fields not touched by the logic are modelled by `Int`.
`Date` timestamps and the random ids of audit entries are external inputs to
the transitions, modelled by an explicit `LogMeta` argument.
-/

/-- Boolean prefix test on lists, by structural recursion. -/
def isPrefixB [DecidableEq α] : List α → List α → Bool
  | [], _ => true
  | _ :: _, [] => false
  | a :: as, b :: bs => if a = b then isPrefixB as bs else false

/-- Boolean infix (contiguous substring) test on lists, by structural
recursion on the haystack. -/
def isInfixB [DecidableEq α] : List α → List α → Bool
  | ns, [] => ns.isEmpty
  | ns, h :: t => isPrefixB ns (h :: t) || isInfixB ns t

theorem isPrefixB_iff [DecidableEq α] (l₁ l₂ : List α) :
    isPrefixB l₁ l₂ = true ↔ l₁ <+: l₂ := by
  induction l₁ generalizing l₂ with
  | nil => simp [isPrefixB]
  | cons a as ih =>
    cases l₂ with
    | nil => simp [isPrefixB]
    | cons b bs =>
      by_cases hab : a = b
      · subst hab
        simp [isPrefixB, ih, List.cons_prefix_cons]
      · simp [isPrefixB, hab, List.cons_prefix_cons]

theorem isInfixB_iff [DecidableEq α] (l₁ l₂ : List α) :
    isInfixB l₁ l₂ = true ↔ l₁ <:+: l₂ := by
  induction l₂ with
  | nil => simp [isInfixB, List.isEmpty_iff]
  | cons h t ih =>
    simp [isInfixB, isPrefixB_iff, ih, List.infix_cons_iff]

/-- JavaScript `haystack.includes(needle)`: contiguous substring containment
on the underlying character lists. -/
def jsIncludes (haystack needle : String) : Bool :=
  isInfixB needle.data haystack.data

/-- JavaScript `s.toLowerCase()` restricted to the ASCII range actually used
by the rule table: lower-case every character. -/
def jsToLower (s : String) : String :=
  ⟨s.data.map Char.toLower⟩

namespace MediGuard

/-! ## Data model (`src/types.ts`) -/

inductive Gender
  | Male | Female | Other
  deriving DecidableEq, Repr

/-- `'High' | 'Moderate' | 'Low'` — the severity of an interaction warning. -/
inductive Severity
  | High | Moderate | Low
  deriving DecidableEq, Repr

/-- `'AI_MODEL' | 'DRUG_DB'` — where a warning came from. -/
inductive WarningSource
  | AI_MODEL | DRUG_DB
  deriving DecidableEq, Repr

structure Medication where
  name : String
  dosage : String
  frequency : String
  deriving DecidableEq, Repr

inductive SmokingStatus
  | Never | Former | Current
  deriving DecidableEq, Repr

inductive AlcoholConsumption
  | None | Occasional | Frequent
  deriving DecidableEq, Repr

inductive ExerciseFrequency
  | Sedentary | Light | Moderate | Active
  deriving DecidableEq, Repr

structure PatientData where
  id : String
  age : Int
  gender : Gender
  weightKg : Rat
  heightCm : Rat
  bmi : Option Rat := none
  systolicBp : Int
  diastolicBp : Int
  heartRate : Int
  smokingStatus : SmokingStatus
  alcoholConsumption : AlcoholConsumption
  exerciseFrequency : ExerciseFrequency
  allergies : List String
  conditions : List String
  currentMedications : List Medication
  primaryComplaint : String
  notes : Option String := none
  deriving DecidableEq, Repr

inductive RiskLevel
  | Low | Medium | High
  deriving DecidableEq, Repr

structure InteractionWarning where
  severity : Severity
  description : String
  source : Option WarningSource := none
  deriving DecidableEq, Repr

structure TreatmentRecommendation where
  medication : String
  dosage : String
  duration : String
  rationale : String
  confidenceScore : Rat
  deriving DecidableEq, Repr

structure ClinicalAnalysis where
  riskLevel : RiskLevel
  riskScore : Rat
  summary : String
  warnings : List InteractionWarning
  contraindications : List String
  treatmentPlan : TreatmentRecommendation
  alternatives : List TreatmentRecommendation
  lifestyleRecommendations : List String
  deriving DecidableEq, Repr

inductive AuditAction
  | INTAKE_SUBMITTED | ANALYSIS_GENERATED | PLAN_MODIFIED | PLAN_APPROVED | PLAN_REJECTED
  deriving DecidableEq, Repr

structure AuditLogEntry where
  id : String
  timestamp : Nat
  action : AuditAction
  user : String
  details : String
  deriving DecidableEq, Repr

inductive AppStep
  | intake | review | summary
  deriving DecidableEq, Repr

/-! ## Drug interaction database (`src/services/drugDatabase.ts`) -/

structure DrugInteractionRule where
  drugs : List String
  severity : Severity
  description : String
  deriving DecidableEq, Repr

/-- First entry of `INTERACTION_DATABASE`. -/
def sildenafilNitroglycerinRule : DrugInteractionRule :=
  { drugs := ["sildenafil", "nitroglycerin"],
    severity := .High,
    description := "CRITICAL: Concomitant use of PDE5 inhibitors (Sildenafil) and Nitrates can cause life-threatening hypotension." }

/-- Second entry of `INTERACTION_DATABASE`. -/
def tadalafilNitroglycerinRule : DrugInteractionRule :=
  { drugs := ["tadalafil", "nitroglycerin"],
    severity := .High,
    description := "CRITICAL: Concomitant use of PDE5 inhibitors (Tadalafil) and Nitrates can cause life-threatening hypotension." }

/-- Third entry of `INTERACTION_DATABASE`. -/
def lisinoprilPotassiumRule : DrugInteractionRule :=
  { drugs := ["lisinopril", "potassium"],
    severity := .Moderate,
    description := "Risk of Hyperkalemia: ACE inhibitors can increase potassium levels." }

/-- Fourth entry of `INTERACTION_DATABASE`. -/
def warfarinAspirinRule : DrugInteractionRule :=
  { drugs := ["warfarin", "aspirin"],
    severity := .High,
    description := "Increased risk of bleeding due to additive anticoagulant effects." }

/-- Fifth entry of `INTERACTION_DATABASE`. -/
def metforminContrastRule : DrugInteractionRule :=
  { drugs := ["metformin", "contrast dye"],
    severity := .Moderate,
    description := "Risk of lactic acidosis. Metformin should be withheld before imaging procedures with contrast." }

/-- The static rule table `INTERACTION_DATABASE`, in source order. -/
def INTERACTION_DATABASE : List DrugInteractionRule :=
  [ sildenafilNitroglycerinRule,
    tadalafilNitroglycerinRule,
    lisinoprilPotassiumRule,
    warfarinAspirinRule,
    metforminContrastRule ]

/-- The condition under which the body of the inner loop of
`checkDatabaseInteractions` pushes a warning:
`hasDrugA && hasDrugB` with
`hasDrugA = rule.drugs.some(d => normalizedCurrent.includes(d))` and
`hasDrugB = rule.drugs.some(d => normalizedProposed.includes(d))`. -/
def ruleFires (med : Medication) (proposedMedName : String) (rule : DrugInteractionRule) : Bool :=
  let normalizedProposed := jsToLower proposedMedName
  let normalizedCurrent := jsToLower med.name
  let hasDrugA := rule.drugs.any fun d => jsIncludes normalizedCurrent d
  let hasDrugB := rule.drugs.any fun d => jsIncludes normalizedProposed d
  hasDrugA && hasDrugB

/-- The warning pushed for a firing rule:
`{ severity: rule.severity, description: `[DATABASE FLAG] ${rule.description}`, source: 'DRUG_DB' }`. -/
def mkDbWarning (rule : DrugInteractionRule) : InteractionWarning :=
  { severity := rule.severity,
    description := "[DATABASE FLAG] " ++ rule.description,
    source := some .DRUG_DB }

/-- `checkDatabaseInteractions(currentMeds, proposedMedName)`: the double loop
over current medications and rules, pushing one warning per firing rule, in
loop order. -/
def checkDatabaseInteractions (currentMeds : List Medication) (proposedMedName : String) :
    List InteractionWarning :=
  currentMeds.foldl
    (fun acc med =>
      INTERACTION_DATABASE.foldl
        (fun acc rule =>
          if ruleFires med proposedMedName rule then acc ++ [mkDbWarning rule] else acc)
        acc)
    []

/-- The matching condition as the specification states it (§4.1): the current
medication's normalized name contains one of the rule's two drug tokens AND
the proposed medication's normalized name contains the *other* token,
symmetrically over the pair. -/
def specRuleMatches (med : Medication) (proposedMedName : String) (rule : DrugInteractionRule) : Bool :=
  let normalizedProposed := jsToLower proposedMedName
  let normalizedCurrent := jsToLower med.name
  match rule.drugs with
  | [a, b] =>
      (jsIncludes normalizedCurrent a && jsIncludes normalizedProposed b) ||
      (jsIncludes normalizedCurrent b && jsIncludes normalizedProposed a)
  | _ => false

/-! ## AI analysis post-validation enrichment (`src/services/geminiService.ts`)

After Zod validation succeeds, `analyzePatient` runs
`parsed.warnings = parsed.warnings.map(w => ({ ...w, source: 'AI_MODEL' }))`
and returns `parsed`.  That pure tail is embedded here; the HTTP call, JSON
parsing and schema validation are external collaborators producing the
`parsed` value. -/

/-- The warning-source enrichment at the end of `analyzePatient`. -/
def enrichWarningSources (parsed : ClinicalAnalysis) : ClinicalAnalysis :=
  { parsed with warnings := parsed.warnings.map fun w => { w with source := some .AI_MODEL } }

/-! ## Merge & escalation and the session state machine
(`App` component in `src/components/FinalSummary.tsx`) -/

/-- Steps 2–3 of `handleIntakeSubmit`: merge the deterministic warnings into
the AI result and escalate the risk when a critical database warning is
present. -/
def mergeAndEscalate (analysis : ClinicalAnalysis) (dbWarnings : List InteractionWarning) :
    ClinicalAnalysis :=
  if dbWarnings.length > 0 then
    let analysis := { analysis with warnings := dbWarnings ++ analysis.warnings }
    if dbWarnings.any fun w => w.severity == Severity.High then
      { analysis with riskLevel := .High, riskScore := max analysis.riskScore 90 }
    else
      analysis
  else
    analysis

/-- The id (from `Math.random`) and timestamp (from `new Date()`) of one
`addLog` call, supplied by the environment. -/
structure LogMeta where
  id : String
  timestamp : Nat
  deriving DecidableEq, Repr

/-- The entry built by `addLog`; the logged-in user is simulated as a
constant. -/
def mkLogEntry (m : LogMeta) (action : AuditAction) (details : String) : AuditLogEntry :=
  { id := m.id, timestamp := m.timestamp, action := action, user := "Dr. Admin",
    details := details }

/-- `addLog`: `setAuditLogs(prev => [...prev, entry])`. -/
def addLog (logs : List AuditLogEntry) (m : LogMeta) (action : AuditAction) (details : String) :
    List AuditLogEntry :=
  logs ++ [mkLogEntry m action details]

/-- The session state held by the `App` component (`useState` hooks), minus
the transient `isLoading` flag, which is always back to `false` when a
handler finishes. -/
structure AppState where
  step : AppStep
  patientData : Option PatientData
  analysis : Option ClinicalAnalysis
  finalPlan : Option TreatmentRecommendation
  auditLogs : List AuditLogEntry
  error : Option String
  deriving DecidableEq, Repr

/-- The initial `useState` values. -/
def initialState : AppState :=
  { step := .intake, patientData := none, analysis := none, finalPlan := none,
    auditLogs := [], error := none }

/-- String interpolation of a `RiskLevel` enum value (its string literal). -/
def riskLevelStr : RiskLevel → String
  | .Low => "Low"
  | .Medium => "Medium"
  | .High => "High"

/-- `handleIntakeSubmit`: record the patient, log the intake, and — when the
external AI call succeeds with `result` — log the generated analysis,
cross-check the database, merge, and move to review; on failure set the
error message and stay on intake. -/
def handleIntakeSubmit (s : AppState) (data : PatientData)
    (aiResult : Except String ClinicalAnalysis) (m₁ m₂ : LogMeta) : AppState :=
  let s := { s with patientData := some data, error := none }
  let logs₁ := addLog s.auditLogs m₁ .INTAKE_SUBMITTED
    ("Patient " ++ data.id ++ " intake completed.")
  let s := { s with auditLogs := logs₁ }
  match aiResult with
  | .ok result =>
      let genDetails :=
        "Gemini generated plan for " ++ data.primaryComplaint ++ ". Risk: " ++
          riskLevelStr result.riskLevel
      let logs₂ := addLog s.auditLogs m₂ .ANALYSIS_GENERATED genDetails
      let s := { s with auditLogs := logs₂ }
      let dbWarnings :=
        checkDatabaseInteractions data.currentMedications result.treatmentPlan.medication
      { s with analysis := some (mergeAndEscalate result dbWarnings), step := .review }
  | .error _ => { s with error := some "Analysis failed. Please try again." }

/-- The `changes` array built by `handleApprovePlan`: one diff string per
differing field, pushed in the order medication, dosage, duration. -/
def planChanges (original plan : TreatmentRecommendation) : List String :=
  (if plan.medication ≠ original.medication then
    ["Medication: " ++ original.medication ++ " -> " ++ plan.medication] else []) ++
  (if plan.dosage ≠ original.dosage then
    ["Dosage: " ++ original.dosage ++ " -> " ++ plan.dosage] else []) ++
  (if plan.duration ≠ original.duration then
    ["Duration: " ++ original.duration ++ " -> " ++ plan.duration] else [])

/-- JavaScript `changes.join(', ')`. -/
def joinComma : List String → String
  | [] => ""
  | [x] => x
  | x :: xs => x ++ ", " ++ joinComma xs

/-- `handleApprovePlan`: compare the finalized plan against
`analysis?.treatmentPlan`, log `PLAN_MODIFIED` with the joined diff when any
of the three compared fields changed (`PLAN_APPROVED` otherwise), store the
final plan, and move to the summary step. -/
def handleApprovePlan (s : AppState) (plan : TreatmentRecommendation) (m : LogMeta) : AppState :=
  let changes :=
    match s.analysis with
    | some a => planChanges a.treatmentPlan plan
    | none => []
  let logs₁ :=
    if changes.length > 0 then
      addLog s.auditLogs m .PLAN_MODIFIED ("Doctor modified: " ++ joinComma changes)
    else
      addLog s.auditLogs m .PLAN_APPROVED "Plan accepted without modification."
  let s := { s with auditLogs := logs₁ }
  { s with finalPlan := some plan, step := .summary }

/-- `handleRestart`: reset all session state, the audit log included; the
error banner is not cleared by this handler. -/
def handleRestart (s : AppState) : AppState :=
  { s with
    step := .intake, patientData := none, analysis := none, finalPlan := none,
    auditLogs := [] }

/-- `handleRejectPlan`: log the rejection (`patientData?.primaryComplaint ||
'unknown'` — the falsy empty string also falls back) and restart. -/
def handleRejectPlan (s : AppState) (m : LogMeta) : AppState :=
  let complaint :=
    match s.patientData with
    | some p => if p.primaryComplaint = "" then "unknown" else p.primaryComplaint
    | none => "unknown"
  let logs₁ := addLog s.auditLogs m .PLAN_REJECTED
    ("Plan for " ++ complaint ++ " rejected by clinician.")
  let s := { s with auditLogs := logs₁ }
  handleRestart s

/-- The workflow transitions of one session, with the external inputs each
handler consumes (AI call outcome, entry ids and timestamps) made explicit. -/
inductive Trans
  | intakeSubmit (data : PatientData) (aiResult : Except String ClinicalAnalysis) (m₁ m₂ : LogMeta)
  | approvePlan (plan : TreatmentRecommendation) (m : LogMeta)
  | rejectPlan (m : LogMeta)
  | restart

/-- One transition of the session state machine. -/
def stepTrans (s : AppState) : Trans → AppState
  | .intakeSubmit data aiResult m₁ m₂ => handleIntakeSubmit s data aiResult m₁ m₂
  | .approvePlan plan m => handleApprovePlan s plan m
  | .rejectPlan m => handleRejectPlan s m
  | .restart => handleRestart s

/-- The transitions that go through `handleRestart` and discard the session
state. -/
def resetsSession : Trans → Bool
  | .rejectPlan _ => true
  | .restart => true
  | _ => false

/-- The session states reachable from the initial state. -/
inductive Reachable : AppState → Prop
  | init : Reachable initialState
  | step (s : AppState) (t : Trans) : Reachable s → Reachable (stepTrans s t)

end MediGuard

namespace MediGuard

/-! ## Helper lemmas -/

/-- Concrete sample values used by witnesses and counterexamples. -/
def nitroMed : Medication :=
  { name := "Nitroglycerin 0.4mg", dosage := "0.4mg", frequency := "PRN" }

def sildenafilMed : Medication :=
  { name := "Sildenafil", dosage := "50mg", frequency := "once daily" }

def samplePlan : TreatmentRecommendation :=
  { medication := "Sildenafil", dosage := "50mg", duration := "30 days",
    rationale := "First-line therapy.", confidenceScore := 80 }

def sampleAiWarning : InteractionWarning :=
  { severity := .Moderate, description := "Monitor blood pressure.", source := some .AI_MODEL }

def sampleAnalysis : ClinicalAnalysis :=
  { riskLevel := .Medium, riskScore := 40, summary := "Stable.",
    warnings := [sampleAiWarning], contraindications := [],
    treatmentPlan := samplePlan, alternatives := [], lifestyleRecommendations := [] }

theorem foldl_push_eq_filter_map (p : α → Bool) (f : α → β) (l : List α) (acc : List β) :
    l.foldl (fun acc x => if p x then acc ++ [f x] else acc) acc
      = acc ++ (l.filter p).map f := by
  induction l generalizing acc with
  | nil => simp
  | cons x xs ih =>
    by_cases hx : p x
    · simp [List.foldl_cons, hx, ih, List.filter_cons_of_pos]
    · simp [List.foldl_cons, hx, ih, List.filter_cons_of_neg]

theorem foldl_append_eq_bind (g : α → List β) (l : List α) (acc : List β) :
    l.foldl (fun acc x => acc ++ g x) acc = acc ++ l.flatMap g := by
  induction l generalizing acc with
  | nil => simp
  | cons x xs ih => simp [List.foldl_cons, ih]

/-- `checkDatabaseInteractions` characterised declaratively: for each current
medication, in order, one warning per firing rule, in table order. -/
theorem checkDatabaseInteractions_eq_bind (meds : List Medication) (proposed : String) :
    checkDatabaseInteractions meds proposed
      = meds.flatMap fun med =>
          (INTERACTION_DATABASE.filter (ruleFires med proposed)).map mkDbWarning := by
  unfold checkDatabaseInteractions
  have hinner : ∀ (med : Medication) (acc : List InteractionWarning),
      INTERACTION_DATABASE.foldl
        (fun acc rule =>
          if ruleFires med proposed rule then acc ++ [mkDbWarning rule] else acc) acc
        = acc ++ (INTERACTION_DATABASE.filter (ruleFires med proposed)).map mkDbWarning := by
    intro med acc
    exact foldl_push_eq_filter_map _ _ _ _
  calc meds.foldl
        (fun acc med =>
          INTERACTION_DATABASE.foldl
            (fun acc rule =>
              if ruleFires med proposed rule then acc ++ [mkDbWarning rule] else acc) acc)
        []
      = meds.foldl
          (fun acc med =>
            acc ++ (INTERACTION_DATABASE.filter (ruleFires med proposed)).map mkDbWarning)
          [] := by
        congr 1
        funext acc med
        exact hinner med acc
    _ = [] ++ meds.flatMap (fun med =>
          (INTERACTION_DATABASE.filter (ruleFires med proposed)).map mkDbWarning) :=
        foldl_append_eq_bind _ _ _
    _ = _ := by simp

end MediGuard

namespace MediGuard

/-- A High-severity deterministic warning, as the checker emits it for the
sildenafil/nitroglycerin rule. -/
def highDbWarning : InteractionWarning :=
  { severity := .High,
    description := "[DATABASE FLAG] CRITICAL: Concomitant use of PDE5 inhibitors (Sildenafil) and Nitrates can cause life-threatening hypotension.",
    source := some .DRUG_DB }

/-- A Moderate-severity deterministic warning (lisinopril/potassium rule). -/
def moderateDbWarning : InteractionWarning :=
  { severity := .Moderate,
    description := "[DATABASE FLAG] Risk of Hyperkalemia: ACE inhibitors can increase potassium levels.",
    source := some .DRUG_DB }

/-- Claim C1: for every analysis with `riskScore` in `[0,100]` and every
non-empty `dbWarnings` list containing a High-severity warning, the merge
step forces `riskLevel = High` and sets `riskScore = max(riskScore, 90)`;
the post-merge score is at least the pre-merge score and at least 90. -/
theorem mergeAndEscalate_high_floor (a : ClinicalAnalysis) (db : List InteractionWarning)
    (h0 : 0 ≤ a.riskScore) (h100 : a.riskScore ≤ 100)
    (hne : db ≠ []) (hhigh : ∃ w ∈ db, w.severity = Severity.High) :
    (mergeAndEscalate a db).riskLevel = RiskLevel.High ∧
    (mergeAndEscalate a db).riskScore = max a.riskScore 90 ∧
    a.riskScore ≤ (mergeAndEscalate a db).riskScore ∧
    (90 : Rat) ≤ (mergeAndEscalate a db).riskScore := by
  have hlen : db.length > 0 := List.length_pos.mpr hne
  have hany : (db.any fun w => w.severity == Severity.High) = true := by
    rw [List.any_eq_true]
    obtain ⟨w, hw, hsev⟩ := hhigh
    exact ⟨w, hw, by simp [hsev]⟩
  refine ⟨?_, ?_, ?_, ?_⟩ <;>
    simp [mergeAndEscalate, hlen, hany, le_max_left, le_max_right]

/-- Witness for C1: the end-to-end scenario of the specification (risk score
40, one High deterministic warning) escalates to High risk with score 90. -/
theorem mergeAndEscalate_high_floor_witness :
    (0 ≤ sampleAnalysis.riskScore ∧ sampleAnalysis.riskScore ≤ 100 ∧
      [highDbWarning] ≠ [] ∧
      ∃ w ∈ [highDbWarning], w.severity = Severity.High) ∧
    (mergeAndEscalate sampleAnalysis [highDbWarning]).riskLevel = RiskLevel.High ∧
    (mergeAndEscalate sampleAnalysis [highDbWarning]).riskScore
      = max sampleAnalysis.riskScore 90 ∧
    sampleAnalysis.riskScore ≤ (mergeAndEscalate sampleAnalysis [highDbWarning]).riskScore ∧
    (90 : Rat) ≤ (mergeAndEscalate sampleAnalysis [highDbWarning]).riskScore :=
  ⟨⟨by decide, by decide, by decide, ⟨highDbWarning, by decide, by decide⟩⟩,
    mergeAndEscalate_high_floor sampleAnalysis [highDbWarning]
      (by decide) (by decide) (by decide) ⟨highDbWarning, by decide, by decide⟩⟩

/-- Claim C3: with non-empty `dbWarnings`, the merged warning list is exactly
`dbWarnings` concatenated before the analysis's original warnings, both
sublists in their original relative order. -/
theorem mergeAndEscalate_warning_order (a : ClinicalAnalysis) (db : List InteractionWarning)
    (hne : db ≠ []) :
    (mergeAndEscalate a db).warnings = db ++ a.warnings := by
  have hlen : db.length > 0 := List.length_pos.mpr hne
  cases hB : db.any fun w => w.severity == Severity.High <;>
    simp [mergeAndEscalate, hlen, hB]

/-- Witness for C3: a two-element deterministic list lands before the AI
warning, in order. -/
theorem mergeAndEscalate_warning_order_witness :
    [highDbWarning, moderateDbWarning] ≠ ([] : List InteractionWarning) ∧
    (mergeAndEscalate sampleAnalysis [highDbWarning, moderateDbWarning]).warnings
      = [highDbWarning, moderateDbWarning] ++ sampleAnalysis.warnings :=
  ⟨by decide,
    mergeAndEscalate_warning_order sampleAnalysis [highDbWarning, moderateDbWarning] (by decide)⟩

/-- Claim C4: empty `dbWarnings` passes the analysis through unchanged; a
non-empty `dbWarnings` list with no High-severity entry leaves `riskLevel`
and `riskScore` as supplied and only prepends the deterministic warnings. -/
theorem mergeAndEscalate_frame (a : ClinicalAnalysis) (db : List InteractionWarning) :
    (db = [] → mergeAndEscalate a db = a) ∧
    (db ≠ [] → (∀ w ∈ db, w.severity ≠ Severity.High) →
      (mergeAndEscalate a db).riskLevel = a.riskLevel ∧
      (mergeAndEscalate a db).riskScore = a.riskScore ∧
      mergeAndEscalate a db = { a with warnings := db ++ a.warnings }) := by
  constructor
  · intro h
    subst h
    simp [mergeAndEscalate]
  · intro hne hnohigh
    have hlen : db.length > 0 := List.length_pos.mpr hne
    have hany : (db.any fun w => w.severity == Severity.High) = false := by
      rw [List.any_eq_false]
      intro w hw
      simp [hnohigh w hw]
    refine ⟨?_, ?_, ?_⟩ <;> simp [mergeAndEscalate, hlen, hany]

/-- Witness for C4: a Moderate-only deterministic list leaves risk level and
score untouched and only prepends the warning. -/
theorem mergeAndEscalate_frame_witness :
    (([] : List InteractionWarning) = [] →
      mergeAndEscalate sampleAnalysis [] = sampleAnalysis) ∧
    ([moderateDbWarning] ≠ [] ∧ (∀ w ∈ [moderateDbWarning], w.severity ≠ Severity.High) ∧
      (mergeAndEscalate sampleAnalysis [moderateDbWarning]).riskLevel
        = sampleAnalysis.riskLevel ∧
      (mergeAndEscalate sampleAnalysis [moderateDbWarning]).riskScore
        = sampleAnalysis.riskScore ∧
      mergeAndEscalate sampleAnalysis [moderateDbWarning]
        = { sampleAnalysis with
            warnings := [moderateDbWarning] ++ sampleAnalysis.warnings }) :=
  ⟨(mergeAndEscalate_frame sampleAnalysis []).1,
    by decide,
    by decide,
    (mergeAndEscalate_frame sampleAnalysis [moderateDbWarning]).2 (by decide) (by decide)⟩

/-- Claim C10: after the post-validation enrichment step of `analyzePatient`,
every warning's source is `AI_MODEL`, whatever the validated model output
carried. -/
theorem enrichWarningSources_all_ai (parsed : ClinicalAnalysis) (w : InteractionWarning)
    (hw : w ∈ (enrichWarningSources parsed).warnings) :
    w.source = some WarningSource.AI_MODEL := by
  simp only [enrichWarningSources, List.mem_map] at hw
  obtain ⟨w', -, rfl⟩ := hw
  rfl

/-- Witness for C10: a warning the model tagged `DRUG_DB` comes out tagged
`AI_MODEL`. -/
theorem enrichWarningSources_all_ai_witness :
    ({ severity := .High, description := "Check interactions.",
       source := some WarningSource.AI_MODEL : InteractionWarning } ∈
      (enrichWarningSources
        { sampleAnalysis with
          warnings := [{ severity := .High, description := "Check interactions.",
                         source := some WarningSource.DRUG_DB }] }).warnings) ∧
    ({ severity := .High, description := "Check interactions.",
       source := some WarningSource.AI_MODEL : InteractionWarning }).source
      = some WarningSource.AI_MODEL :=
  ⟨by decide,
    enrichWarningSources_all_ai
      { sampleAnalysis with
        warnings := [{ severity := .High, description := "Check interactions.",
                       source := some WarningSource.DRUG_DB }] }
      _ (by decide)⟩

end MediGuard

namespace MediGuard

/-- Counterexample to claim C5 as stated: at a firing input, the emitted
warning's description matches no rule's description verbatim (it carries the
`[DATABASE FLAG] ` prefix). -/
theorem checkDatabaseInteractions_description_not_verbatim :
    (checkDatabaseInteractions [nitroMed] "Sildenafil").length = 1 ∧
    ∀ w ∈ checkDatabaseInteractions [nitroMed] "Sildenafil",
      ∀ r ∈ INTERACTION_DATABASE, w.description ≠ r.description := by
  decide

/-- Claim C5 (amended): each firing `(medication, rule)` pair emits exactly
one warning, with `source = DRUG_DB`, the severity taken verbatim from the
rule, and the rule's description prefixed with `[DATABASE FLAG] `. -/
theorem checkDatabaseInteractions_per_rule (meds : List Medication) (proposed : String) :
    checkDatabaseInteractions meds proposed
      = meds.flatMap fun med =>
          (INTERACTION_DATABASE.filter (ruleFires med proposed)).map fun rule =>
            { severity := rule.severity,
              description := "[DATABASE FLAG] " ++ rule.description,
              source := some WarningSource.DRUG_DB } := by
  rw [checkDatabaseInteractions_eq_bind]
  rfl

/-- Claim C2 is violated by the code: with the single current medication
"Sildenafil" and proposed name "Sildenafil", no rule satisfies the claimed
condition (current name contains one token of the pair and the proposed name
contains the *other*), yet `checkDatabaseInteractions` emits the
sildenafil/nitroglycerin warning — both `hasDrugA` and `hasDrugB` are
satisfied by the *same* token. -/
theorem checkDatabaseInteractions_fires_without_pair_match :
    (∀ r ∈ INTERACTION_DATABASE, specRuleMatches sildenafilMed "Sildenafil" r = false) ∧
    checkDatabaseInteractions [sildenafilMed] "Sildenafil" = [highDbWarning] := by
  decide

/-- Claim C9: an empty medication list, an empty proposed name, or an input
on which no rule fires for any `(medication, rule)` pair yields the empty
warning list (the checker is a total function, so no error is possible). -/
theorem checkDatabaseInteractions_empty_cases (meds : List Medication) (proposed : String) :
    checkDatabaseInteractions [] proposed = [] ∧
    checkDatabaseInteractions meds "" = [] ∧
    ((∀ med ∈ meds, ∀ rule ∈ INTERACTION_DATABASE, ruleFires med proposed rule = false) →
      checkDatabaseInteractions meds proposed = []) := by
  refine ⟨rfl, ?_, ?_⟩
  · rw [checkDatabaseInteractions_eq_bind]
    have hfires : ∀ rule ∈ INTERACTION_DATABASE, ∀ med : Medication,
        ruleFires med "" rule = false := by
      intro rule hr med
      have hB : (rule.drugs.any fun d => jsIncludes (jsToLower "") d) = false := by
        fin_cases hr <;> decide
      simp [ruleFires, hB]
    induction meds with
    | nil => rfl
    | cons med meds ih =>
      have hfilter : INTERACTION_DATABASE.filter (ruleFires med "") = [] := by
        rw [List.filter_eq_nil_iff]
        intro rule hr
        simp [hfires rule hr med]
      simp [List.flatMap_cons, hfilter, ih]
  · intro h
    rw [checkDatabaseInteractions_eq_bind]
    induction meds with
    | nil => rfl
    | cons med meds ih =>
      have hfilter : INTERACTION_DATABASE.filter (ruleFires med proposed) = [] := by
        rw [List.filter_eq_nil_iff]
        intro rule hr
        simp [h med (by simp) rule hr]
      have ih' := ih fun med' hmed' rule hr => h med' (by simp [hmed']) rule hr
      simp [List.flatMap_cons, hfilter, ih']

/-- Witness for C9: nitroglycerin against proposed "aspirin" fires no rule
and returns the empty list. -/
theorem checkDatabaseInteractions_empty_cases_witness :
    (∀ med ∈ [nitroMed], ∀ rule ∈ INTERACTION_DATABASE,
      ruleFires med "aspirin" rule = false) ∧
    checkDatabaseInteractions [nitroMed] "aspirin" = [] :=
  ⟨by decide, (checkDatabaseInteractions_empty_cases [nitroMed] "aspirin").2.2 (by decide)⟩

end MediGuard

namespace MediGuard

/-- A medication name containing both drug tokens of the sildenafil rule;
used to refute the uniqueness part of claim C8. -/
def blendMed : Medication :=
  { name := "Sildenafil Nitroglycerin", dosage := "", frequency := "" }

/-- Counterexample to claim C8 as stated: in the swapped direction (current
medication name containing "sildenafil", proposed name "nitroglycerin"),
a name that also contains "nitroglycerin" fires the tadalafil/nitroglycerin
rule as well, so the checker does not return exactly one warning. -/
theorem checkDatabaseInteractions_swapped_not_unique :
    jsIncludes (jsToLower blendMed.name) "sildenafil" = true ∧
    (checkDatabaseInteractions [blendMed] "nitroglycerin").length ≠ 1 := by
  decide

/-- Claim C8 (amended): a single current medication whose lower-cased name
contains "nitroglycerin" against proposed "sildenafil" yields exactly the
one High-severity `DRUG_DB` warning of the sildenafil/nitroglycerin rule;
in the swapped direction (name containing "sildenafil" against proposed
"nitroglycerin") the same holds provided the name does not also contain
"nitroglycerin" or "tadalafil". -/
theorem checkDatabaseInteractions_nitro_pde5_unique (med₁ med₂ : Medication) :
    (jsIncludes (jsToLower med₁.name) "nitroglycerin" = true →
      checkDatabaseInteractions [med₁] "sildenafil" = [highDbWarning]) ∧
    (jsIncludes (jsToLower med₂.name) "sildenafil" = true →
      jsIncludes (jsToLower med₂.name) "nitroglycerin" = false →
      jsIncludes (jsToLower med₂.name) "tadalafil" = false →
      checkDatabaseInteractions [med₂] "nitroglycerin" = [highDbWarning]) ∧
    highDbWarning.severity = Severity.High ∧
    highDbWarning.source = some WarningSource.DRUG_DB := by
  refine ⟨?_, ?_, rfl, rfl⟩
  · intro h
    have hA1 : (sildenafilNitroglycerinRule.drugs.any
        fun d => jsIncludes (jsToLower med₁.name) d) = true := by
      simp [sildenafilNitroglycerinRule, h]
    have hB1 : (sildenafilNitroglycerinRule.drugs.any
        fun d => jsIncludes (jsToLower "sildenafil") d) = true := by decide
    have hB2 : (tadalafilNitroglycerinRule.drugs.any
        fun d => jsIncludes (jsToLower "sildenafil") d) = false := by decide
    have hB3 : (lisinoprilPotassiumRule.drugs.any
        fun d => jsIncludes (jsToLower "sildenafil") d) = false := by decide
    have hB4 : (warfarinAspirinRule.drugs.any
        fun d => jsIncludes (jsToLower "sildenafil") d) = false := by decide
    have hB5 : (metforminContrastRule.drugs.any
        fun d => jsIncludes (jsToLower "sildenafil") d) = false := by decide
    have f1 : ruleFires med₁ "sildenafil" sildenafilNitroglycerinRule = true := by
      simp [ruleFires, hA1, hB1]
    have f2 : ruleFires med₁ "sildenafil" tadalafilNitroglycerinRule = false := by
      simp [ruleFires, hB2]
    have f3 : ruleFires med₁ "sildenafil" lisinoprilPotassiumRule = false := by
      simp [ruleFires, hB3]
    have f4 : ruleFires med₁ "sildenafil" warfarinAspirinRule = false := by
      simp [ruleFires, hB4]
    have f5 : ruleFires med₁ "sildenafil" metforminContrastRule = false := by
      simp [ruleFires, hB5]
    have hmk : mkDbWarning sildenafilNitroglycerinRule = highDbWarning := by decide
    rw [checkDatabaseInteractions_eq_bind]
    simp [INTERACTION_DATABASE, List.filter_cons, f1, f2, f3, f4, f5, hmk]
  · intro h₁ h₂ h₃
    have hA1 : (sildenafilNitroglycerinRule.drugs.any
        fun d => jsIncludes (jsToLower med₂.name) d) = true := by
      simp [sildenafilNitroglycerinRule, h₁]
    have hA2 : (tadalafilNitroglycerinRule.drugs.any
        fun d => jsIncludes (jsToLower med₂.name) d) = false := by
      simp [tadalafilNitroglycerinRule, h₂, h₃]
    have hB1 : (sildenafilNitroglycerinRule.drugs.any
        fun d => jsIncludes (jsToLower "nitroglycerin") d) = true := by decide
    have hB3 : (lisinoprilPotassiumRule.drugs.any
        fun d => jsIncludes (jsToLower "nitroglycerin") d) = false := by decide
    have hB4 : (warfarinAspirinRule.drugs.any
        fun d => jsIncludes (jsToLower "nitroglycerin") d) = false := by decide
    have hB5 : (metforminContrastRule.drugs.any
        fun d => jsIncludes (jsToLower "nitroglycerin") d) = false := by decide
    have f1 : ruleFires med₂ "nitroglycerin" sildenafilNitroglycerinRule = true := by
      simp [ruleFires, hA1, hB1]
    have f2 : ruleFires med₂ "nitroglycerin" tadalafilNitroglycerinRule = false := by
      simp [ruleFires, hA2]
    have f3 : ruleFires med₂ "nitroglycerin" lisinoprilPotassiumRule = false := by
      simp [ruleFires, hB3]
    have f4 : ruleFires med₂ "nitroglycerin" warfarinAspirinRule = false := by
      simp [ruleFires, hB4]
    have f5 : ruleFires med₂ "nitroglycerin" metforminContrastRule = false := by
      simp [ruleFires, hB5]
    have hmk : mkDbWarning sildenafilNitroglycerinRule = highDbWarning := by decide
    rw [checkDatabaseInteractions_eq_bind]
    simp [INTERACTION_DATABASE, List.filter_cons, f1, f2, f3, f4, f5, hmk]

/-- Witness for C8: "Nitroglycerin 0.4mg" against "sildenafil", and
"Sildenafil" against "nitroglycerin", each return the single High warning. -/
theorem checkDatabaseInteractions_nitro_pde5_unique_witness :
    (jsIncludes (jsToLower nitroMed.name) "nitroglycerin" = true ∧
      checkDatabaseInteractions [nitroMed] "sildenafil" = [highDbWarning]) ∧
    (jsIncludes (jsToLower sildenafilMed.name) "sildenafil" = true ∧
      jsIncludes (jsToLower sildenafilMed.name) "nitroglycerin" = false ∧
      jsIncludes (jsToLower sildenafilMed.name) "tadalafil" = false ∧
      checkDatabaseInteractions [sildenafilMed] "nitroglycerin" = [highDbWarning]) :=
  ⟨⟨by decide,
      (checkDatabaseInteractions_nitro_pde5_unique nitroMed sildenafilMed).1 (by decide)⟩,
    ⟨by decide, by decide, by decide,
      (checkDatabaseInteractions_nitro_pde5_unique nitroMed sildenafilMed).2.1
        (by decide) (by decide) (by decide)⟩⟩

end MediGuard

namespace MediGuard

/-! ## Audit lemmas -/

theorem joinComma_data_decomp (l : List String) (x : String) (hx : x ∈ l) :
    ∃ p q : List Char, (joinComma l).data = p ++ x.data ++ q := by
  induction l with
  | nil => cases hx
  | cons y ys ih =>
    rcases List.mem_cons.mp hx with hxy | hxys
    · subst hxy
      cases ys with
      | nil => exact ⟨[], [], by simp [joinComma]⟩
      | cons z zs =>
        refine ⟨[], (", " ++ joinComma (z :: zs)).data, ?_⟩
        simp [joinComma, String.data_append]
    · have hys : ys ≠ [] := List.ne_nil_of_mem hxys
      obtain ⟨z, zs, rfl⟩ := List.exists_cons_of_ne_nil hys
      obtain ⟨p, q, hpq⟩ := ih hxys
      refine ⟨y.data ++ (", " : String).data ++ p, q, ?_⟩
      simp [joinComma, String.data_append, hpq]

theorem jsIncludes_joinComma (pre : String) (l : List String) (x : String) (hx : x ∈ l) :
    jsIncludes (pre ++ joinComma l) x = true := by
  obtain ⟨p, q, hpq⟩ := joinComma_data_decomp l x hx
  rw [jsIncludes, isInfixB_iff, String.data_append, hpq]
  exact ⟨pre.data ++ p, q, by simp⟩

theorem planChanges_eq_nil_iff (o p : TreatmentRecommendation) :
    planChanges o p = [] ↔
      (p.medication = o.medication ∧ p.dosage = o.dosage ∧ p.duration = o.duration) := by
  unfold planChanges
  by_cases h₁ : p.medication = o.medication <;>
    by_cases h₂ : p.dosage = o.dosage <;>
      by_cases h₃ : p.duration = o.duration <;>
        simp [h₁, h₂, h₃]

theorem medication_diff_mem (o p : TreatmentRecommendation)
    (h : p.medication ≠ o.medication) :
    ("Medication: " ++ o.medication ++ " -> " ++ p.medication) ∈ planChanges o p := by
  simp [planChanges, h]

theorem dosage_diff_mem (o p : TreatmentRecommendation) (h : p.dosage ≠ o.dosage) :
    ("Dosage: " ++ o.dosage ++ " -> " ++ p.dosage) ∈ planChanges o p := by
  simp [planChanges, h]

theorem duration_diff_mem (o p : TreatmentRecommendation) (h : p.duration ≠ o.duration) :
    ("Duration: " ++ o.duration ++ " -> " ++ p.duration) ∈ planChanges o p := by
  simp [planChanges, h]

theorem handleApprovePlan_eq (s : AppState) (a : ClinicalAnalysis)
    (plan : TreatmentRecommendation) (m : LogMeta) (ha : s.analysis = some a) :
    handleApprovePlan s plan m =
      { s with
        auditLogs :=
          if (planChanges a.treatmentPlan plan).length > 0 then
            addLog s.auditLogs m .PLAN_MODIFIED
              ("Doctor modified: " ++ joinComma (planChanges a.treatmentPlan plan))
          else
            addLog s.auditLogs m .PLAN_APPROVED "Plan accepted without modification.",
        finalPlan := some plan,
        step := .summary } := by
  simp only [handleApprovePlan, ha]

end MediGuard

namespace MediGuard

/-- Claim C6: approving a finalized plan appends exactly one audit entry;
when `medication`, `dosage` or `duration` differs from the AI-proposed
primary plan the entry is `PLAN_MODIFIED` and its details contain an
old/new diff for each changed field; when all three are equal the entry is
`PLAN_APPROVED` (so a `rationale`-only change never logs a modification). -/
theorem handleApprovePlan_audit (s : AppState) (a : ClinicalAnalysis)
    (plan : TreatmentRecommendation) (m : LogMeta) (ha : s.analysis = some a) :
    ∃ entry : AuditLogEntry,
      (handleApprovePlan s plan m).auditLogs = s.auditLogs ++ [entry] ∧
      ((plan.medication = a.treatmentPlan.medication ∧
        plan.dosage = a.treatmentPlan.dosage ∧
        plan.duration = a.treatmentPlan.duration) →
          entry.action = AuditAction.PLAN_APPROVED) ∧
      (¬(plan.medication = a.treatmentPlan.medication ∧
         plan.dosage = a.treatmentPlan.dosage ∧
         plan.duration = a.treatmentPlan.duration) →
          entry.action = AuditAction.PLAN_MODIFIED ∧
          (plan.medication ≠ a.treatmentPlan.medication →
            jsIncludes entry.details
              ("Medication: " ++ a.treatmentPlan.medication ++ " -> " ++ plan.medication)
              = true) ∧
          (plan.dosage ≠ a.treatmentPlan.dosage →
            jsIncludes entry.details
              ("Dosage: " ++ a.treatmentPlan.dosage ++ " -> " ++ plan.dosage) = true) ∧
          (plan.duration ≠ a.treatmentPlan.duration →
            jsIncludes entry.details
              ("Duration: " ++ a.treatmentPlan.duration ++ " -> " ++ plan.duration)
              = true)) := by
  rw [handleApprovePlan_eq s a plan m ha]
  by_cases hc : planChanges a.treatmentPlan plan = []
  · refine ⟨mkLogEntry m .PLAN_APPROVED "Plan accepted without modification.", ?_, ?_, ?_⟩
    · simp [hc, addLog]
    · intro _
      rfl
    · intro hne
      exact absurd ((planChanges_eq_nil_iff _ _).mp hc) hne
  · have hpos : (planChanges a.treatmentPlan plan).length > 0 := List.length_pos.mpr hc
    refine ⟨mkLogEntry m .PLAN_MODIFIED
      ("Doctor modified: " ++ joinComma (planChanges a.treatmentPlan plan)), ?_, ?_, ?_⟩
    · simp [if_pos hpos, addLog]
    · intro heq
      exact absurd ((planChanges_eq_nil_iff _ _).mpr heq) hc
    · intro _
      refine ⟨rfl, ?_, ?_, ?_⟩
      · intro hmed
        exact jsIncludes_joinComma _ _ _ (medication_diff_mem _ _ hmed)
      · intro hdos
        exact jsIncludes_joinComma _ _ _ (dosage_diff_mem _ _ hdos)
      · intro hdur
        exact jsIncludes_joinComma _ _ _ (duration_diff_mem _ _ hdur)

/-- A review-step state holding the sample analysis, for the audit witnesses. -/
def approveState : AppState :=
  { step := .review, patientData := none, analysis := some sampleAnalysis,
    finalPlan := none, auditLogs := [], error := none }

/-- The sample plan with only the dosage edited. -/
def modifiedPlan : TreatmentRecommendation :=
  { samplePlan with dosage := "25mg" }

/-- Witness for C6: a dosage-only edit of the sample plan. -/
theorem handleApprovePlan_audit_witness :
    approveState.analysis = some sampleAnalysis ∧
    ∃ entry : AuditLogEntry,
      (handleApprovePlan approveState modifiedPlan ⟨"a1", 10⟩).auditLogs
        = approveState.auditLogs ++ [entry] ∧
      ((modifiedPlan.medication = sampleAnalysis.treatmentPlan.medication ∧
        modifiedPlan.dosage = sampleAnalysis.treatmentPlan.dosage ∧
        modifiedPlan.duration = sampleAnalysis.treatmentPlan.duration) →
          entry.action = AuditAction.PLAN_APPROVED) ∧
      (¬(modifiedPlan.medication = sampleAnalysis.treatmentPlan.medication ∧
         modifiedPlan.dosage = sampleAnalysis.treatmentPlan.dosage ∧
         modifiedPlan.duration = sampleAnalysis.treatmentPlan.duration) →
          entry.action = AuditAction.PLAN_MODIFIED ∧
          (modifiedPlan.medication ≠ sampleAnalysis.treatmentPlan.medication →
            jsIncludes entry.details
              ("Medication: " ++ sampleAnalysis.treatmentPlan.medication ++ " -> " ++
                modifiedPlan.medication) = true) ∧
          (modifiedPlan.dosage ≠ sampleAnalysis.treatmentPlan.dosage →
            jsIncludes entry.details
              ("Dosage: " ++ sampleAnalysis.treatmentPlan.dosage ++ " -> " ++
                modifiedPlan.dosage) = true) ∧
          (modifiedPlan.duration ≠ sampleAnalysis.treatmentPlan.duration →
            jsIncludes entry.details
              ("Duration: " ++ sampleAnalysis.treatmentPlan.duration ++ " -> " ++
                modifiedPlan.duration) = true)) :=
  ⟨rfl, handleApprovePlan_audit approveState sampleAnalysis modifiedPlan ⟨"a1", 10⟩ rfl⟩

end MediGuard

namespace MediGuard

theorem prefix_append_append (l a b : List α) : l <+: (l ++ a) ++ b :=
  List.IsPrefix.trans (List.prefix_append l a) (List.prefix_append (l ++ a) b)

/-- Counterexample to claim C7 as stated: a demonstration patient record. -/
def demoPatient : PatientData :=
  { id := "P-001", age := 58, gender := .Male, weightKg := 82, heightCm := 175,
    systolicBp := 130, diastolicBp := 85, heartRate := 72,
    smokingStatus := .Former, alcoholConsumption := .Occasional,
    exerciseFrequency := .Light, allergies := [], conditions := [],
    currentMedications := [], primaryComplaint := "Erectile Dysfunction" }

/-- The intake transition used to reach a review-step state with a non-empty
audit log. -/
def demoIntakeTrans : Trans :=
  .intakeSubmit demoPatient (.ok sampleAnalysis) ⟨"e1", 1⟩ ⟨"e2", 2⟩

/-- The session state after a successful intake submission. -/
def demoReviewState : AppState :=
  stepTrans initialState demoIntakeTrans

/-- Counterexample to claim C7 as stated: from a reachable state whose audit
log holds the intake and analysis entries, the plan-rejected transition
leaves an empty log — the previous log is not a prefix of the new one,
because `handleRejectPlan` ends in `handleRestart`, which clears the log. -/
theorem auditLog_not_preserved_on_reject :
    Reachable demoReviewState ∧
    ¬(demoReviewState.auditLogs <+:
        (stepTrans demoReviewState (Trans.rejectPlan ⟨"e3", 3⟩)).auditLogs) :=
  ⟨Reachable.step initialState demoIntakeTrans Reachable.init, by
    rw [← isPrefixB_iff]
    decide⟩

/-- Claim C7 (amended): every transition except plan rejection and restart
extends the audit log — the previous log is a prefix of the new one, no
entry is removed, mutated or reordered; plan rejection appends the
`PLAN_REJECTED` entry but then resets the whole session, so it (like
restart) leaves the log empty. -/
theorem auditLogs_append_only_unless_reset (s : AppState) (t : Trans) :
    (resetsSession t = false → s.auditLogs <+: (stepTrans s t).auditLogs) ∧
    (resetsSession t = true → (stepTrans s t).auditLogs = []) := by
  cases t with
  | intakeSubmit data aiResult m₁ m₂ =>
    refine ⟨fun _ => ?_, fun h => by simp [resetsSession] at h⟩
    cases aiResult with
    | ok result =>
      simp only [stepTrans, handleIntakeSubmit, addLog]
      exact prefix_append_append _ _ _
    | error e =>
      simp only [stepTrans, handleIntakeSubmit, addLog]
      exact List.prefix_append _ _
  | approvePlan plan m =>
    refine ⟨fun _ => ?_, fun h => by simp [resetsSession] at h⟩
    simp only [stepTrans, handleApprovePlan, addLog]
    split <;> exact List.prefix_append _ _
  | rejectPlan m =>
    exact ⟨fun h => by simp [resetsSession] at h, fun _ => rfl⟩
  | restart =>
    exact ⟨fun h => by simp [resetsSession] at h, fun _ => rfl⟩

/-- Witness for C7 (amended): approving from the initial state extends the
log, and rejecting from the initial state leaves it empty. -/
theorem auditLogs_append_only_unless_reset_witness :
    (resetsSession (Trans.approvePlan samplePlan ⟨"a1", 1⟩) = false ∧
      initialState.auditLogs <+:
        (stepTrans initialState (Trans.approvePlan samplePlan ⟨"a1", 1⟩)).auditLogs) ∧
    (resetsSession (Trans.rejectPlan ⟨"r1", 2⟩) = true ∧
      (stepTrans initialState (Trans.rejectPlan ⟨"r1", 2⟩)).auditLogs = []) :=
  ⟨⟨rfl, (auditLogs_append_only_unless_reset initialState
      (Trans.approvePlan samplePlan ⟨"a1", 1⟩)).1 rfl⟩,
    ⟨rfl, (auditLogs_append_only_unless_reset initialState
      (Trans.rejectPlan ⟨"r1", 2⟩)).2 rfl⟩⟩

end MediGuard
